import Mathlib

/-!
Verification of the sync-trigger core of the wunderlist workflow.

The program under study is `src/wunderlist/sync.py`, two functions:

* `sync()` — creates the four model tables with `safe=True`, then calls
  `Root.sync()`.
* `backgroundSync()` — unconditionally calls
  `run_in_background('sync', ['/usr/bin/env', 'python', <entry file>,
  'sync', '--commit'])`.

The collaborators (`wunderlist.models`, peewee's `create_tables`,
`workflow.background.run_in_background`, `wunderlist.util.workflow`) are
not part of the source under study; where their behaviour decides a
property, they are modelled from the specification, and each such
definition says so in its doc comment.
-/

namespace Wunderlist

/-- Modelled from the spec: the table definitions imported by `sync()`
(`wunderlist.models.{root, list, task, user}`) are not under src/; the
spec fixes them as "four tables: a root/aggregate table, and tables for
lists, tasks, and users". A table is identified by its name. -/
def requiredTables : List String := ["root", "lists", "tasks", "users"]

/-- Modelled from the spec: peewee's `create_tables(tables, safe=True)` is
not under src/; the spec gives its contract as "create if absent,
otherwise no-op" — it never errors when a table already exists and never
destroys or alters existing tables. A store is the list of its table
names. -/
def create_tables (store : List String) (tables : List String) : List String :=
  tables.foldl (fun s t => if t ∈ s then s else s ++ [t]) store

/-- The Schema Initializer: the `create_tables` call of `sync()` in
`src/wunderlist/sync.py`, specialised to the four required tables. -/
def ensureSchema (store : List String) : List String :=
  create_tables store requiredTables

/-- Outcomes of the two fallible external collaborators used by `sync()`:
`none` means the call succeeds, `some e` that it raises the error `e`. -/
structure SyncEnv where
  schemaError : Option String
  reconcileError : Option String

/-- Collaborator invocations observable during a `sync()` call. -/
inductive Ev
  | createTables
  | rootSync
deriving DecidableEq

/-- Result of a `sync()` call: the final store, the ordered list of
collaborator invocations, and the error propagated to the caller, if
any. -/
structure SyncResult where
  store : List String
  events : List Ev
  error : Option String
deriving DecidableEq

/-- `sync()` from `src/wunderlist/sync.py`: create the four tables with
`safe=True`, then call `Root.sync()`; an exception raised at either step
propagates to the caller, and nothing is rolled back. -/
def sync (env : SyncEnv) (store : List String) : SyncResult :=
  match env.schemaError with
  | some e => ⟨store, [Ev.createTables], some e⟩
  | none =>
    match env.reconcileError with
    | none => ⟨ensureSchema store, [Ev.createTables, Ev.rootSync], none⟩
    | some e => ⟨ensureSchema store, [Ev.createTables, Ev.rootSync], some e⟩

/-- The external world as seen by `backgroundSync()`: the job-tracking
collaborator's answer per job id, whether the OS-level spawn primitive
succeeds, and the workflow directory against which the entry file path is
resolved. -/
structure LaunchEnv where
  jobRunning : String → Bool
  spawnOk : Bool
  workflowDir : String

/-- Modelled from the spec: `wunderlist.util.workflow().workflowfile(name)`
is not under src/; the spec describes it as "a resolved path to the
launchable entry file", i.e. `name` resolved against the workflow
directory. -/
def workflowfile (env : LaunchEnv) (name : String) : String :=
  env.workflowDir ++ "/" ++ name

/-- What a `run_in_background` call did: the processes it created (job id
and command), the messages it sent to the ambient diagnostics channel, and
the error it raised to its caller, if any. -/
structure SpawnOutcome where
  spawns : List (String × List String)
  diagnostics : List String
  raised : Option String
deriving DecidableEq

/-- Modelled from the spec: `workflow.background.run_in_background` is not
under src/; per the spec this job-tracking/spawn collaborator itself
re-checks the job id — it is a no-op when a job with this identity is
already running — and a spawn failure is surfaced only via ambient
diagnostics, never raised to the caller. -/
def run_in_background (env : LaunchEnv) (jobId : String) (cmd : List String) :
    SpawnOutcome :=
  if env.jobRunning jobId then ⟨[], [], none⟩
  else if env.spawnOk then ⟨[(jobId, cmd)], [], none⟩
  else ⟨[], ["spawn failed"], none⟩

/-- The collaborator calls `backgroundSync()` itself can make: it imports
both `run_in_background` and `is_running` from `workflow.background`. -/
inductive CollabCall
  | runInBackground (jobId : String) (cmd : List String)
  | isRunningQuery (jobId : String)
deriving DecidableEq

/-- The command list built inside `backgroundSync()` in
`src/wunderlist/sync.py`. -/
def syncCommand (env : LaunchEnv) : List String :=
  ["/usr/bin/env", "python",
   workflowfile env "alfred-wunderlist-workflow.py",
   "sync", "--commit"]

/-- Result of a `backgroundSync()` call: the collaborator calls issued by
the function itself, in order, and the outcome of the spawn collaborator. -/
structure LaunchResult where
  calls : List CollabCall
  outcome : SpawnOutcome

/-- `backgroundSync()` from `src/wunderlist/sync.py`: it unconditionally
issues a single `run_in_background('sync', ...)` call; the imported
`is_running` is never invoked by this function, and no branch is taken. -/
def backgroundSync (env : LaunchEnv) : LaunchResult :=
  ⟨[CollabCall.runInBackground "sync" (syncCommand env)],
   run_in_background env "sync" (syncCommand env)⟩

/-- The world shared between the caller of `backgroundSync()` and any
spawned sync process: the durable store, the number of reconciliation
passes completed so far, and the spawned processes that have not yet
run. -/
structure World where
  env : LaunchEnv
  store : List String
  completedSyncs : Nat
  pending : List (String × List String)

/-- The effect of one `backgroundSync()` call on the world: the spawn
decision is made and any created process is merely pending; the call
itself performs no reconciliation work and touches no tables. -/
def backgroundSyncStep (w : World) : World :=
  ⟨w.env, w.store, w.completedSyncs,
   w.pending ++ (backgroundSync w.env).outcome.spawns⟩

/-- A pending spawned process later runs `sync()` to completion — a
separate world step, taken only after `backgroundSyncStep` has already
returned. -/
def runPendingStep (senv : SyncEnv) (w : World) : World :=
  match w.pending with
  | [] => w
  | _ :: rest =>
    let r := sync senv w.store
    ⟨w.env, r.store,
     w.completedSyncs + (if r.error = none then 1 else 0), rest⟩

/-- A concrete environment in which no sync job is running and the spawn
primitive succeeds. -/
def envFree : LaunchEnv := ⟨fun _ => false, true, "/wf"⟩

/-- A concrete environment in which a sync job is already running. -/
def envBusy : LaunchEnv := ⟨fun _ => true, true, "/wf"⟩

/-- A concrete environment in which no sync job is running but the spawn
primitive fails. -/
def envNoSpawn : LaunchEnv := ⟨fun _ => false, false, "/wf"⟩

/-- `create_tables` only appends: the original store is an initial segment
of the result, so no existing table is removed or altered. -/
theorem create_tables_append (ts : List String) :
    ∀ s : List String, ∃ extra, create_tables s ts = s ++ extra := by
  induction ts with
  | nil => intro s; exact ⟨[], by simp [create_tables]⟩
  | cons a ts ih =>
    intro s
    by_cases h : a ∈ s
    · obtain ⟨extra, hx⟩ := ih s
      exact ⟨extra, by simpa [create_tables, h] using hx⟩
    · obtain ⟨extra, hx⟩ := ih (s ++ [a])
      refine ⟨[a] ++ extra, ?_⟩
      simpa [create_tables, h, List.append_assoc] using hx

/-- Tables present before a `create_tables` call are still present after. -/
theorem mem_create_tables_of_mem {t : String} {s : List String}
    (ts : List String) (h : t ∈ s) : t ∈ create_tables s ts := by
  obtain ⟨extra, hx⟩ := create_tables_append ts s
  rw [hx]; exact List.mem_append_left _ h

/-- Every requested table is present after a `create_tables` call. -/
theorem mem_create_tables_of_mem_arg {t : String} (ts : List String) :
    ∀ s : List String, t ∈ ts → t ∈ create_tables s ts := by
  induction ts with
  | nil => intro s h; cases h
  | cons a ts ih =>
    intro s h
    rcases List.mem_cons.1 h with h | h
    · subst h
      by_cases ha : t ∈ s
      · simpa [create_tables, ha] using mem_create_tables_of_mem ts ha
      · have : t ∈ s ++ [t] := List.mem_append_right _ (by simp)
        simpa [create_tables, ha] using mem_create_tables_of_mem ts this
    · by_cases ha : a ∈ s
      · simpa [create_tables, ha] using ih s h
      · simpa [create_tables, ha] using ih (s ++ [a]) h

/-- When every requested table already exists, `create_tables` is a no-op. -/
theorem create_tables_eq_of_subset (ts : List String) :
    ∀ s : List String, (∀ t ∈ ts, t ∈ s) → create_tables s ts = s := by
  induction ts with
  | nil => intro s _; rfl
  | cons a ts ih =>
    intro s h
    have ha : a ∈ s := h a (by simp)
    have : create_tables s (a :: ts) = create_tables s ts := by
      simp [create_tables, ha]
    rw [this]
    exact ih s fun t ht => h t (by simp [ht])

/-- `ensureSchema` is idempotent as a function on stores. -/
theorem ensureSchema_idem (s : List String) :
    ensureSchema (ensureSchema s) = ensureSchema s := by
  unfold ensureSchema
  exact create_tables_eq_of_subset requiredTables _
    fun t ht => mem_create_tables_of_mem_arg requiredTables s ht

/-- C1 counterexample: in a concrete environment where no sync job is
running, `backgroundSync()` does spawn exactly one process tagged "sync",
but its command list has five elements, so it is not of the claimed
four-element form `[interpreter, entryFilePath, "sync", "--commit"]` for
any choice of interpreter and entry file path. -/
theorem backgroundSync_command_not_four_elements :
    envFree.jobRunning "sync" = false ∧
    (backgroundSync envFree).outcome.spawns.length = 1 ∧
    ¬ ∃ interp entry,
        (backgroundSync envFree).outcome.spawns.map Prod.snd =
          [[interp, entry, "sync", "--commit"]] := by
  refine ⟨rfl, rfl, ?_⟩
  rintro ⟨interp, entry, h⟩
  simp [backgroundSync, run_in_background, envFree, syncCommand,
    workflowfile] at h

/-- C1 (amended): when the job-tracking collaborator reports no sync job
running and the OS spawn primitive succeeds, `backgroundSync()` results in
exactly one spawned process, tagged with job identity "sync", running the
five-element command `['/usr/bin/env', 'python', entryFilePath, 'sync',
'--commit']` where the entry file path is resolved against the workflow
directory. -/
theorem backgroundSync_spawns_once (env : LaunchEnv)
    (hrun : env.jobRunning "sync" = false) (hok : env.spawnOk = true) :
    (backgroundSync env).outcome.spawns =
      [("sync", ["/usr/bin/env", "python",
        workflowfile env "alfred-wunderlist-workflow.py",
        "sync", "--commit"])] := by
  simp [backgroundSync, run_in_background, hrun, hok, syncCommand]

/-- Witness for the amended C1 at the concrete environment `envFree`. -/
theorem backgroundSync_spawns_once_witness :
    (backgroundSync envFree).outcome.spawns =
      [("sync", ["/usr/bin/env", "python",
        workflowfile envFree "alfred-wunderlist-workflow.py",
        "sync", "--commit"])] :=
  backgroundSync_spawns_once envFree rfl rfl

/-- C2: when the job-tracking collaborator reports `isJobRunning("sync") ==
true`, a `backgroundSync()` call spawns zero new processes and raises no
error to its caller. -/
theorem backgroundSync_noop_when_running (env : LaunchEnv)
    (h : env.jobRunning "sync" = true) :
    (backgroundSync env).outcome.spawns = [] ∧
    (backgroundSync env).outcome.raised = none := by
  constructor <;> simp [backgroundSync, run_in_background, h]

/-- Witness for C2 at the concrete environment `envBusy`. -/
theorem backgroundSync_noop_when_running_witness :
    (backgroundSync envBusy).outcome.spawns = [] ∧
    (backgroundSync envBusy).outcome.raised = none :=
  backgroundSync_noop_when_running envBusy rfl

/-- C3: `ensureSchema` is idempotent — for every N ≥ 1 the store after N
calls equals the store after 1 call — and with tables already present it
alters nothing: every existing table survives, and the result only ever
appends to the store (nothing is destroyed or altered, and the total
function never errors). -/
theorem ensureSchema_idempotent :
    (∀ (n : Nat) (s : List String), 1 ≤ n →
        ensureSchema^[n] s = ensureSchema^[1] s) ∧
    (∀ (s : List String) (t : String), t ∈ s → t ∈ ensureSchema s) ∧
    (∀ s : List String, ∃ extra, ensureSchema s = s ++ extra) := by
  refine ⟨?_, ?_, ?_⟩
  · intro n
    induction n with
    | zero => intro s h; cases h
    | succ m ih =>
      intro s _
      rcases Nat.eq_zero_or_pos m with hm | hm
      · subst hm; rfl
      · rw [Function.iterate_succ_apply, ih (ensureSchema s) hm]
        exact ensureSchema_idem s
  · intro s t h
    exact mem_create_tables_of_mem requiredTables h
  · intro s
    exact create_tables_append requiredTables s

/-- Witness for C3 at a concrete store and N = 2. -/
theorem ensureSchema_idempotent_witness :
    ensureSchema^[2] ["tasks"] = ensureSchema^[1] ["tasks"] ∧
    "tasks" ∈ ensureSchema ["tasks"] ∧
    ∃ extra, ensureSchema ["tasks"] = ["tasks"] ++ extra :=
  ⟨ensureSchema_idempotent.1 2 ["tasks"] (by decide),
   ensureSchema_idempotent.2.1 ["tasks"] "tasks" (by decide),
   ensureSchema_idempotent.2.2 ["tasks"]⟩

/-- C4: when schema creation succeeds, `sync()` runs the Schema
Initializer first and then invokes `Root.sync()` exactly once, in that
order; the resulting store is exactly the schema-initialised store; and on
a fresh store with no tables, with a successful reconciliation, it creates
all four tables (root, lists, tasks, users) and completes with no
error. -/
theorem sync_order (env : SyncEnv) (store : List String)
    (hs : env.schemaError = none) :
    (sync env store).events = [Ev.createTables, Ev.rootSync] ∧
    (sync env store).events.count Ev.rootSync = 1 ∧
    (sync env store).store = ensureSchema store ∧
    (store = [] → env.reconcileError = none →
      (sync env store).store = ["root", "lists", "tasks", "users"] ∧
      (sync env store).error = none) := by
  cases henv : env.reconcileError with
  | none =>
    refine ⟨by simp [sync, hs, henv], by simp [sync, hs, henv], ?_, ?_⟩
    · simp [sync, hs, henv]
    · rintro rfl _
      constructor
      · simp [sync, hs, henv]; decide
      · simp [sync, hs, henv]
  | some e =>
    refine ⟨by simp [sync, hs, henv], by simp [sync, hs, henv], ?_, ?_⟩
    · simp [sync, hs, henv]
    · rintro rfl hr
      simp at hr

/-- Witness for C4 at the fully successful environment and a fresh
store. -/
theorem sync_order_witness :
    (sync ⟨none, none⟩ []).events = [Ev.createTables, Ev.rootSync] ∧
    (sync ⟨none, none⟩ []).store = ["root", "lists", "tasks", "users"] ∧
    (sync ⟨none, none⟩ []).error = none := by
  have h := sync_order ⟨none, none⟩ [] rfl
  exact ⟨h.1, (h.2.2.2 rfl rfl).1, (h.2.2.2 rfl rfl).2⟩

/-- C5: `backgroundSync()` never raises an error to its caller, whatever
the environment; a spawn failure results in a diagnostics message and no
spawned process, but still no raised error. -/
theorem backgroundSync_swallows_spawn_error (env : LaunchEnv) :
    (backgroundSync env).outcome.raised = none ∧
    (env.jobRunning "sync" = false → env.spawnOk = false →
      (backgroundSync env).outcome.diagnostics = ["spawn failed"] ∧
      (backgroundSync env).outcome.spawns = []) := by
  constructor
  · by_cases h : env.jobRunning "sync" <;>
      by_cases hk : env.spawnOk <;>
      simp [backgroundSync, run_in_background, h, hk]
  · intro h hk
    constructor <;> simp [backgroundSync, run_in_background, h, hk]

/-- Witness for C5 at the concrete environment `envNoSpawn`, where the
spawn primitive fails. -/
theorem backgroundSync_swallows_spawn_error_witness :
    (backgroundSync envNoSpawn).outcome.raised = none ∧
    (backgroundSync envNoSpawn).outcome.diagnostics = ["spawn failed"] ∧
    (backgroundSync envNoSpawn).outcome.spawns = [] :=
  ⟨(backgroundSync_swallows_spawn_error envNoSpawn).1,
   (backgroundSync_swallows_spawn_error envNoSpawn).2 rfl rfl⟩

/-- C6: when schema creation fails with error `e`, `sync()` propagates
exactly `e` to its caller and `Root.sync()` is never invoked in that
call. -/
theorem sync_schema_error_aborts (env : SyncEnv) (store : List String)
    (e : String) (h : env.schemaError = some e) :
    (sync env store).error = some e ∧
    Ev.rootSync ∉ (sync env store).events := by
  constructor <;> simp [sync, h]

/-- Witness for C6 at a concrete failing environment. -/
theorem sync_schema_error_aborts_witness :
    (sync ⟨some "storage unavailable", none⟩ []).error =
      some "storage unavailable" ∧
    Ev.rootSync ∉ (sync ⟨some "storage unavailable", none⟩ []).events :=
  sync_schema_error_aborts ⟨some "storage unavailable", none⟩ []
    "storage unavailable" rfl

/-- C7: when schema creation succeeds but `Root.sync()` raises error `e`,
`sync()` propagates exactly `e` unchanged, and the store is left exactly
as the schema initialisation established it — no rollback. -/
theorem sync_reconcile_error_propagates (env : SyncEnv)
    (store : List String) (e : String)
    (hs : env.schemaError = none) (hr : env.reconcileError = some e) :
    (sync env store).error = some e ∧
    (sync env store).store = ensureSchema store := by
  constructor <;> simp [sync, hs, hr]

/-- Witness for C7 at a concrete auth-failure environment and a fresh
store: the error comes out unchanged and the four created tables stay. -/
theorem sync_reconcile_error_propagates_witness :
    (sync ⟨none, some "auth failure"⟩ []).error = some "auth failure" ∧
    (sync ⟨none, some "auth failure"⟩ []).store = ensureSchema [] :=
  sync_reconcile_error_propagates ⟨none, some "auth failure"⟩ []
    "auth failure" rfl rfl

/-- C8: a `backgroundSync()` call never waits on the spawned sync process:
the world state it returns with has the reconciliation count and the store
untouched, and whatever it spawned is still pending, to be run only by a
later, separate step. -/
theorem backgroundSync_nonblocking (w : World) :
    (backgroundSyncStep w).completedSyncs = w.completedSyncs ∧
    (backgroundSyncStep w).store = w.store ∧
    (backgroundSyncStep w).pending =
      w.pending ++ (backgroundSync w.env).outcome.spawns :=
  ⟨rfl, rfl, rfl⟩

/-- C9: `backgroundSync()` itself holds no branch and performs no
running-check: in every environment — in particular whatever
`is_running` would answer — its own collaborator-call trace is exactly
one `run_in_background` call with job identity "sync", and it contains no
`is_running` query for any job id. -/
theorem backgroundSync_unconditional (env : LaunchEnv) :
    (backgroundSync env).calls =
      [CollabCall.runInBackground "sync" (syncCommand env)] ∧
    ∀ j, CollabCall.isRunningQuery j ∉ (backgroundSync env).calls := by
  refine ⟨rfl, ?_⟩
  intro j h
  simp [backgroundSync] at h

/-- C10: the command list `backgroundSync()` passes to the spawn
collaborator has exactly five elements and begins with '/usr/bin/env'
followed by 'python', so the concrete interpreter is resolved from the
PATH environment by `env` at spawn time rather than being a fixed absolute
interpreter binary. -/
theorem backgroundSync_command_shape (env : LaunchEnv) :
    (backgroundSync env).calls =
      [CollabCall.runInBackground "sync" (syncCommand env)] ∧
    (syncCommand env).length = 5 ∧
    (syncCommand env).take 2 = ["/usr/bin/env", "python"] :=
  ⟨rfl, rfl, rfl⟩

end Wunderlist
